import Mathlib

/-!
Verification of the `mat2nc.c` converter from the gcam-driver repository.

The program reads a configuration stream naming 26 file tokens (one output
path and 25 input paths), runs a collection of binary/text readers that
normalize each input into `[time][lat][lon]` grids or `[time][entity]`
tables, and writes a single netCDF archive.

Shallow embedding conventions:
* C `float`/`double` values are modeled as `ℚ` (exact arithmetic); the
  floating-point not-a-number marker used by the no-data paths is modeled
  by `Option ℚ` with `none` standing for NaN.
* A binary input file is a `BinFile`: a length (number of 32-bit float
  records available) together with a total function giving the value at
  each stream position.  `fread` of `n` records at position `p` succeeds
  exactly when `p + n ≤ len`, and otherwise delivers the available prefix,
  matching C stream semantics.
* The text population file is modeled at field granularity: a list of
  lines, each line the list of comma-separated numeric fields it contains.
  `fscanf(",%lf")` succeeds exactly when another field remains on the
  current line, and `fgets` discards the rest of the line.
* Filesystems are functions from path strings to optional file contents;
  `none` models `fopen` failure.
-/

namespace Mat2nc

/-- `#define NLAT 360` -/
def NLAT : ℕ := 360

/-- `#define NLON 720` -/
def NLON : ℕ := 720

/-- `#define NYEAR 18` -/
def NYEAR : ℕ := 18

/-- `#define NRGN 63` -/
def NRGN : ℕ := 63

/-- `#define NBASIN 235` -/
def NBASIN : ℕ := 235

/-- Number of cells in one spatial record (`NLAT*NLON`). -/
def CELLS : ℕ := NLAT * NLON

/-- Number of values in one annual block of the monthly file (12 monthly
records of `NLAT*NLON` cells each). -/
def YBLK : ℕ := 12 * CELLS

/-- A flat binary input file: `len` float records, `val i` the record at
stream position `i` (meaningful for `i < len`). -/
structure BinFile where
  len : ℕ
  val : ℕ → ℚ

/-- A spatial grid `data[iyear][ilat][ilon]`; `none` models a NaN cell. -/
abbrev Grid : Type := ℕ → ℕ → ℕ → Option ℚ

/-- The zero-initialized static grid buffers of `main`. -/
def grid0 : Grid := fun _ _ _ => some 0

/-- The integer population table `popdata[iyear][rgn]`. -/
abbrev PopTbl : Type := ℕ → ℕ → ℤ

/-- A filesystem of binary files. -/
abbrev FS : Type := String → Option BinFile

/-- A filesystem of population text files (each file a list of lines,
each line its list of numeric fields). -/
abbrev PopFS : Type := String → Option (List (List ℚ))

/-- `fac = 3.156e-2 / 12.0` from `read_and_aggregate_data`. -/
def fac : ℚ := 3.156e-2 / 12

/-- Sum of the 12 monthly values for the cell whose transposed read-buffer
index is `NLAT*lo + la`, within the annual block starting at stream
position `pos` (`transdata[NLAT*ilon+ilat]` after the accumulation loop). -/
def sumMonths (f : BinFile) (pos la lo : ℕ) : ℚ :=
  ∑ m ∈ Finset.range 12, f.val (pos + m * CELLS + (NLAT * lo + la))

/-- The NaN-fill loop used by both grid readers on the `"no-data"`
sentinel: every cell in `NYEAR × NLAT × NLON` becomes NaN. -/
def nanFill (g : Grid) : Grid := fun iy la lo =>
  if iy < NYEAR ∧ la < NLAT ∧ lo < NLON then none else g iy la lo

/-- The store loop of `read_and_aggregate_data` for one kept year:
`data[iyear][ilat][ilon] = transdata[NLAT*ilon + ilat] * fac`. -/
def aggWrite (f : BinFile) (pos iyear : ℕ) (g : Grid) : Grid := fun iy la lo =>
  if iy = iyear ∧ la < NLAT ∧ lo < NLON
  then some (sumMonths f pos la lo * fac)
  else g iy la lo

/-- The year loop of `read_and_aggregate_data`: iterate `n` remaining
years starting at `year`, reading one 12-month block per iteration from
stream position `pos`; short read returns status 3, years before 2010 or
not divisible by 5 are read but discarded. -/
def raadLoop (f : BinFile) : ℕ → ℕ → ℕ → Grid → ℤ × Grid
  | 0, _, _, g => (0, g)
  | n + 1, year, pos, g =>
    if pos + YBLK ≤ f.len then
      if year < 2010 ∨ year % 5 ≠ 0 then
        raadLoop f n (year + 1) (pos + YBLK) g
      else
        raadLoop f n (year + 1) (pos + YBLK) (aggWrite f pos ((year - 2010) / 5) g)
    else (3, g)

/-- `read_and_aggregate_data`: the monthly-flow grid reader.  Returns the
C status together with the (in-out) grid argument. -/
def readAndAggregateData (filename : String) (bfs : FS) (g : Grid) : ℤ × Grid :=
  if filename = "no-data" then (0, nanFill g)
  else
    match bfs filename with
    | none => (1, g)
    | some f => raadLoop f 95 2001 0 g

/-- `read_5yr_data`: the five-year-interval grid reader with skip-year
count `nskipyr`.  The throwaway `fread` consumes `min (nskipyr*CELLS) len`
records without any check; the main `fread` must deliver exactly
`NYEAR*CELLS` records, after which the transpose loop stores
`data[iyear][ilat][ilon] = readdata[iyear][NLAT*ilon + ilat]`. -/
def read5yrData (filename : String) (bfs : FS) (nskipyr : ℕ) (g : Grid) : ℤ × Grid :=
  if filename = "no-data" then (0, nanFill g)
  else
    match bfs filename with
    | none => (1, g)
    | some f =>
      let pos := min (nskipyr * CELLS) f.len
      if pos + NYEAR * CELLS ≤ f.len then
        (0, fun iy la lo =>
          if iy < NYEAR ∧ la < NLAT ∧ lo < NLON
          then some (f.val (pos + iy * CELLS + (NLAT * lo + la)))
          else g iy la lo)
      else (1, g)

/-- `read_table_data`: the packed-binary table reader.  One throwaway
`fread` of `nrow` records (unchecked), then a main `fread` of
`NYEAR*nrow` records directly into the flat `[time][entity]` table; a
short main read leaves the delivered prefix in the table and fails.
There is no `"no-data"` sentinel check in this reader. -/
def readTableData (filename : String) (bfs : FS) (nrow : ℕ) (tbl : ℕ → ℚ) :
    ℤ × (ℕ → ℚ) :=
  match bfs filename with
  | none => (1, tbl)
  | some f =>
    let pos := min nrow f.len
    let nread := min (NYEAR * nrow) (f.len - pos)
    let tbl2 := fun i => if i < nread then f.val (pos + i) else tbl i
    if nread = NYEAR * nrow then (0, tbl2) else (1, tbl2)

/-- C library `round`: round half away from zero, as used by
`read_pop_data` via `(int) round(tmp)`. -/
def roundHalfAwayFromZero (x : ℚ) : ℤ :=
  if 0 ≤ x then ⌊x + 1 / 2⌋ else ⌈x - 1 / 2⌉

/-- Single-cell assignment `data[y][r] = v` on a population table. -/
def updT (tbl : PopTbl) (y r : ℕ) (v : ℤ) : PopTbl :=
  fun y2 r2 => if y2 = y ∧ r2 = r then v else tbl y2 r2

/-- The inner year loop of `read_pop_data` for region `rgn`: `flds` are
the numeric fields remaining on the current line (after the two dropped
leading fields), `n` the years still to read, `iyear` the current year
index, `tmp` the current value of the scratch variable.  Each iteration
does `fscanf(",%lf")`, assigns `data[iyear][rgn] = (int) round(tmp)`
*before* checking the conversion count, and fails when the line has no
further field, returning the failing year index. -/
def popYears (rgn : ℕ) : List ℚ → ℕ → ℕ → ℚ → PopTbl → Option ℕ × ℚ × PopTbl
  | _, 0, _, tmp, tbl => (none, tmp, tbl)
  | [], _ + 1, iyear, tmp, tbl =>
    (some iyear, tmp, updT tbl iyear rgn (roundHalfAwayFromZero tmp))
  | v :: rest, n + 1, iyear, _, tbl =>
    popYears rgn rest n (iyear + 1) v (updT tbl iyear rgn (roundHalfAwayFromZero v))

/-- The region loop of `read_pop_data`: for each of `n` remaining regions,
drop the first two fields of the current line, run the year loop, then
(`fgets`) discard the remainder of the line and move on.  A missing line
behaves as a line with no fields (EOF makes `fscanf` fail). -/
def popLoop : List (List ℚ) → ℕ → ℕ → ℚ → PopTbl → ℤ × PopTbl
  | _, _, 0, _, tbl => (0, tbl)
  | lines, rgn, n + 1, tmp, tbl =>
    match popYears rgn ((lines.headD []).drop 2) NYEAR 0 tmp tbl with
    | (some _, _, tbl2) => (1, tbl2)
    | (none, tmp2, tbl2) => popLoop lines.tail (rgn + 1) n tmp2 tbl2

/-- `read_pop_data`: the population text reader.  `tmp0` models the
indeterminate initial value of the uninitialized scratch variable `tmp`.
There is no `"no-data"` sentinel check in this reader. -/
def readPopData (filename : String) (pfs : PopFS) (tmp0 : ℚ) (tbl : PopTbl) :
    ℤ × PopTbl :=
  match pfs filename with
  | none => (1, tbl)
  | some lines => popLoop lines 0 NRGN tmp0 tbl

/-- The grid-reading loop of `main` over the seven five-year inputs, with
their skip-year counts (2 for all demand files, 1 for the WSI file):
consume one token per input, run `read_5yr_data`, and propagate the first
failure (token exhaustion is the config-read failure, status 3). -/
def run5yrSeq : List ℕ → List String → FS → Except ℤ (List String)
  | [], toks, _ => .ok toks
  | _ :: _, [], _ => .error 3
  | k :: ks, t :: rest, bfs =>
    let st := (read5yrData t bfs k grid0).1
    if st = 0 then run5yrSeq ks rest bfs else .error st

/-- The table-reading loops of `main` (`n` files of `nrow` rows each). -/
def runTblSeq : ℕ → ℕ → List String → FS → Except ℤ (List String)
  | 0, _, toks, _ => .ok toks
  | _ + 1, _, [], _ => .error 3
  | n + 1, nrow, t :: rest, bfs =>
    let st := (readTableData t bfs nrow (fun _ => 0)).1
    if st = 0 then runTblSeq n nrow rest bfs else .error st

/-- The exit status of `main`.  `argcOk` models `argc == 2`; `cfgOpen`
models the configuration file being openable (or stdin); `nAttrs` is the
number of global attribute values successfully scanned; `toks` the
file-name tokens the configuration supplies in order; `writeOk` whether
every netCDF call in `mat2nc` succeeds (any failure there calls
`check_err`, which exits with status 1).  Note that the status of
`read_and_aggregate_data` is assigned but never tested by `main`. -/
def mainRun (argcOk cfgOpen : Bool) (nAttrs : ℕ) (toks : List String)
    (bfs : FS) (pfs : PopFS) (tmp0 : ℚ) (writeOk : Bool) : ℤ :=
  if ¬argcOk then 2
  else if ¬cfgOpen then 1
  else if nAttrs ≠ 3 then 3
  else
    match toks with
    | [] => 3
    | _outfn :: t1 =>
      match t1 with
      | [] => 3
      | mfn :: t2 =>
        let _mstat := (readAndAggregateData mfn bfs grid0).1
        match run5yrSeq [2, 2, 2, 2, 2, 2, 1] t2 bfs with
        | .error e => e
        | .ok t3 =>
          match t3 with
          | [] => 3
          | popfn :: t4 =>
            let pst := (readPopData popfn pfs tmp0 (fun _ _ => 0)).1
            if pst ≠ 0 then pst
            else
              match runTblSeq 8 NBASIN t4 bfs with
              | .error e => e
              | .ok t5 =>
                match runTblSeq 8 NRGN t5 bfs with
                | .error e => e
                | .ok _ => if writeOk then 0 else 1

set_option maxHeartbeats 2000000 in
/-- The `lat_data` coordinate literal array of `mat2nc` (360 values),
transcribed exactly: each C literal `d.dd` is recorded as the integer
`100 * value` in `latHundredths` and scaled back by `1/100` here, so
that, e.g., the first entry `-8975` stands for the source literal
`-89.75`. -/
def latHundredths : List ℤ := [
  -8975, -8925, -8875, -8825, -8775, -8725, -8675, -8625, -8575, -8525, -8475, -8425, -8375,
  -8325, -8275, -8225, -8175, -8125, -8075, -8025, -7975, -7925, -7875, -7825, -7775, -7725,
  -7675, -7625, -7575, -7525, -7475, -7425, -7375, -7325, -7275, -7225, -7175, -7125, -7075,
  -7025, -6975, -6925, -6875, -6825, -6775, -6725, -6675, -6625, -6575, -6525, -6475, -6425,
  -6375, -6325, -6275, -6225, -6175, -6125, -6075, -6025, -5975, -5925, -5875, -5825, -5775,
  -5725, -5675, -5625, -5575, -5525, -5475, -5425, -5375, -5325, -5275, -5225, -5175, -5125,
  -5075, -5025, -4975, -4925, -4875, -4825, -4775, -4725, -4675, -4625, -4575, -4525, -4475,
  -4425, -4375, -4325, -4275, -4225, -4175, -4125, -4075, -4025, -3975, -3925, -3875, -3825,
  -3775, -3725, -3675, -3625, -3575, -3525, -3475, -3425, -3375, -3325, -3275, -3225, -3175,
  -3125, -3075, -3025, -2975, -2925, -2875, -2825, -2775, -2725, -2675, -2625, -2575, -2525,
  -2475, -2425, -2375, -2325, -2275, -2225, -2175, -2125, -2075, -2025, -1975, -1925, -1875,
  -1825, -1775, -1725, -1675, -1625, -1575, -1525, -1475, -1425, -1375, -1325, -1275, -1225,
  -1175, -1125, -1075, -1025, -975, -925, -875, -825, -775, -725, -675, -625, -575, -525, -475,
  -425, -375, -325, -275, -225, -175, -125, -75, -25, 25, 75, 125, 175, 225, 275, 325, 375, 425,
  475, 525, 575, 625, 675, 725, 775, 825, 875, 925, 975, 1025, 1075, 1125, 1175, 1225, 1275,
  1325, 1375, 1425, 1475, 1525, 1575, 1625, 1675, 1725, 1775, 1825, 1875, 1925, 1975, 2025,
  2075, 2125, 2175, 2225, 2275, 2325, 2375, 2425, 2475, 2525, 2575, 2625, 2675, 2725, 2775,
  2825, 2875, 2925, 2975, 3025, 3075, 3125, 3175, 3225, 3275, 3325, 3375, 3425, 3475, 3525,
  3575, 3625, 3675, 3725, 3775, 3825, 3875, 3925, 3975, 4025, 4075, 4125, 4175, 4225, 4275,
  4325, 4375, 4425, 4475, 4525, 4575, 4625, 4675, 4725, 4775, 4825, 4875, 4925, 4975, 5025,
  5075, 5125, 5175, 5225, 5275, 5325, 5375, 5425, 5475, 5525, 5575, 5625, 5675, 5725, 5775,
  5825, 5875, 5925, 5975, 6025, 6075, 6125, 6175, 6225, 6275, 6325, 6375, 6425, 6475, 6525,
  6575, 6625, 6675, 6725, 6775, 6825, 6875, 6925, 6975, 7025, 7075, 7125, 7175, 7225, 7275,
  7325, 7375, 7425, 7475, 7525, 7575, 7625, 7675, 7725, 7775, 7825, 7875, 7925, 7975, 8025,
  8075, 8125, 8175, 8225, 8275, 8325, 8375, 8425, 8475, 8525, 8575, 8625, 8675, 8725, 8775,
  8825, 8875, 8925, 8975
]

/-- The `lat_data` array as rationals: `latHundredths` divided by 100. -/
def lat_data : List ℚ := latHundredths.map (fun z : ℤ => (z : ℚ) / 100)

set_option maxHeartbeats 2000000 in
/-- The `lon_data` coordinate literal array of `mat2nc` (720 values),
transcribed exactly in hundredths like `latHundredths` (the first entry
`-17975` stands for the source literal `-179.75`). -/
def lonHundredths : List ℤ := [
  -17975, -17925, -17875, -17825, -17775, -17725, -17675, -17625, -17575, -17525, -17475,
  -17425, -17375, -17325, -17275, -17225, -17175, -17125, -17075, -17025, -16975, -16925,
  -16875, -16825, -16775, -16725, -16675, -16625, -16575, -16525, -16475, -16425, -16375,
  -16325, -16275, -16225, -16175, -16125, -16075, -16025, -15975, -15925, -15875, -15825,
  -15775, -15725, -15675, -15625, -15575, -15525, -15475, -15425, -15375, -15325, -15275,
  -15225, -15175, -15125, -15075, -15025, -14975, -14925, -14875, -14825, -14775, -14725,
  -14675, -14625, -14575, -14525, -14475, -14425, -14375, -14325, -14275, -14225, -14175,
  -14125, -14075, -14025, -13975, -13925, -13875, -13825, -13775, -13725, -13675, -13625,
  -13575, -13525, -13475, -13425, -13375, -13325, -13275, -13225, -13175, -13125, -13075,
  -13025, -12975, -12925, -12875, -12825, -12775, -12725, -12675, -12625, -12575, -12525,
  -12475, -12425, -12375, -12325, -12275, -12225, -12175, -12125, -12075, -12025, -11975,
  -11925, -11875, -11825, -11775, -11725, -11675, -11625, -11575, -11525, -11475, -11425,
  -11375, -11325, -11275, -11225, -11175, -11125, -11075, -11025, -10975, -10925, -10875,
  -10825, -10775, -10725, -10675, -10625, -10575, -10525, -10475, -10425, -10375, -10325,
  -10275, -10225, -10175, -10125, -10075, -10025, -9975, -9925, -9875, -9825, -9775, -9725,
  -9675, -9625, -9575, -9525, -9475, -9425, -9375, -9325, -9275, -9225, -9175, -9125, -9075,
  -9025, -8975, -8925, -8875, -8825, -8775, -8725, -8675, -8625, -8575, -8525, -8475, -8425,
  -8375, -8325, -8275, -8225, -8175, -8125, -8075, -8025, -7975, -7925, -7875, -7825, -7775,
  -7725, -7675, -7625, -7575, -7525, -7475, -7425, -7375, -7325, -7275, -7225, -7175, -7125,
  -7075, -7025, -6975, -6925, -6875, -6825, -6775, -6725, -6675, -6625, -6575, -6525, -6475,
  -6425, -6375, -6325, -6275, -6225, -6175, -6125, -6075, -6025, -5975, -5925, -5875, -5825,
  -5775, -5725, -5675, -5625, -5575, -5525, -5475, -5425, -5375, -5325, -5275, -5225, -5175,
  -5125, -5075, -5025, -4975, -4925, -4875, -4825, -4775, -4725, -4675, -4625, -4575, -4525,
  -4475, -4425, -4375, -4325, -4275, -4225, -4175, -4125, -4075, -4025, -3975, -3925, -3875,
  -3825, -3775, -3725, -3675, -3625, -3575, -3525, -3475, -3425, -3375, -3325, -3275, -3225,
  -3175, -3125, -3075, -3025, -2975, -2925, -2875, -2825, -2775, -2725, -2675, -2625, -2575,
  -2525, -2475, -2425, -2375, -2325, -2275, -2225, -2175, -2125, -2075, -2025, -1975, -1925,
  -1875, -1825, -1775, -1725, -1675, -1625, -1575, -1525, -1475, -1425, -1375, -1325, -1275,
  -1225, -1175, -1125, -1075, -1025, -975, -925, -875, -825, -775, -725, -675, -625, -575, -525,
  -475, -425, -375, -325, -275, -225, -175, -125, -75, -25, 25, 75, 125, 175, 225, 275, 325,
  375, 425, 475, 525, 575, 625, 675, 725, 775, 825, 875, 925, 975, 1025, 1075, 1125, 1175, 1225,
  1275, 1325, 1375, 1425, 1475, 1525, 1575, 1625, 1675, 1725, 1775, 1825, 1875, 1925, 1975,
  2025, 2075, 2125, 2175, 2225, 2275, 2325, 2375, 2425, 2475, 2525, 2575, 2625, 2675, 2725,
  2775, 2825, 2875, 2925, 2975, 3025, 3075, 3125, 3175, 3225, 3275, 3325, 3375, 3425, 3475,
  3525, 3575, 3625, 3675, 3725, 3775, 3825, 3875, 3925, 3975, 4025, 4075, 4125, 4175, 4225,
  4275, 4325, 4375, 4425, 4475, 4525, 4575, 4625, 4675, 4725, 4775, 4825, 4875, 4925, 4975,
  5025, 5075, 5125, 5175, 5225, 5275, 5325, 5375, 5425, 5475, 5525, 5575, 5625, 5675, 5725,
  5775, 5825, 5875, 5925, 5975, 6025, 6075, 6125, 6175, 6225, 6275, 6325, 6375, 6425, 6475,
  6525, 6575, 6625, 6675, 6725, 6775, 6825, 6875, 6925, 6975, 7025, 7075, 7125, 7175, 7225,
  7275, 7325, 7375, 7425, 7475, 7525, 7575, 7625, 7675, 7725, 7775, 7825, 7875, 7925, 7975,
  8025, 8075, 8125, 8175, 8225, 8275, 8325, 8375, 8425, 8475, 8525, 8575, 8625, 8675, 8725,
  8775, 8825, 8875, 8925, 8975, 9025, 9075, 9125, 9175, 9225, 9275, 9325, 9375, 9425, 9475,
  9525, 9575, 9625, 9675, 9725, 9775, 9825, 9875, 9925, 9975, 10025, 10075, 10125, 10175, 10225,
  10275, 10325, 10375, 10425, 10475, 10525, 10575, 10625, 10675, 10725, 10775, 10825, 10875,
  10925, 10975, 11025, 11075, 11125, 11175, 11225, 11275, 11325, 11375, 11425, 11475, 11525,
  11575, 11625, 11675, 11725, 11775, 11825, 11875, 11925, 11975, 12025, 12075, 12125, 12175,
  12225, 12275, 12325, 12375, 12425, 12475, 12525, 12575, 12625, 12675, 12725, 12775, 12825,
  12875, 12925, 12975, 13025, 13075, 13125, 13175, 13225, 13275, 13325, 13375, 13425, 13475,
  13525, 13575, 13625, 13675, 13725, 13775, 13825, 13875, 13925, 13975, 14025, 14075, 14125,
  14175, 14225, 14275, 14325, 14375, 14425, 14475, 14525, 14575, 14625, 14675, 14725, 14775,
  14825, 14875, 14925, 14975, 15025, 15075, 15125, 15175, 15225, 15275, 15325, 15375, 15425,
  15475, 15525, 15575, 15625, 15675, 15725, 15775, 15825, 15875, 15925, 15975, 16025, 16075,
  16125, 16175, 16225, 16275, 16325, 16375, 16425, 16475, 16525, 16575, 16625, 16675, 16725,
  16775, 16825, 16875, 16925, 16975, 17025, 17075, 17125, 17175, 17225, 17275, 17325, 17375,
  17425, 17475, 17525, 17575, 17625, 17675, 17725, 17775, 17825, 17875, 17925, 17975
]

/-- The `lon_data` array as rationals: `lonHundredths` divided by 100. -/
def lon_data : List ℚ := lonHundredths.map (fun z : ℤ => (z : ℚ) / 100)

/-- The `time_data` coordinate literal array of `mat2nc` (18 values). -/
def time_data : List ℚ := [
  2010, 2015, 2020, 2025, 2030, 2035, 2040, 2045, 2050, 2055, 2060, 2065, 2070, 2075, 2080,
  2085, 2090, 2095
]

/-- The `rgn_data` coordinate array: the loop `rgn_data[i] = i` over
`NRGN` entries. -/
def rgn_data : List ℤ := (List.range NRGN).map (fun i => (i : ℤ))

/-- The `basin_data` coordinate array: the loop `basin_data[i] = i + 1`
over `NBASIN` entries. -/
def basin_data : List ℤ := (List.range NBASIN).map (fun i => (i : ℤ) + 1)


/-- Example monthly-flow input: 95 annual blocks, every record 1. -/
def exMonthly : BinFile := ⟨95 * YBLK, fun _ => 1⟩

/-- Filesystem holding only the example monthly file. -/
def exBfsMonthly : FS := fun s => if s = "runoff.dat" then some exMonthly else none

/-- Example five-year input for skip-year-count 2: 20 records, the value
at stream position `i` being `i`. -/
def ex5yr : BinFile := ⟨20 * CELLS, fun i => (i : ℚ)⟩

/-- Filesystem holding only the example five-year file. -/
def exBfs5yr : FS := fun s => if s = "demand.dat" then some ex5yr else none

/-- Example basin-table input: `19 * NBASIN` records, value = position. -/
def exTbl : BinFile := ⟨19 * NBASIN, fun i => (i : ℚ)⟩

/-- Filesystem holding only the example basin-table file. -/
def exBfsTbl : FS := fun s => if s = "basin.dat" then some exTbl else none

/-- Example well-formed population file: 63 lines of 20 zero fields. -/
def exPopLines : List (List ℚ) := List.replicate 63 (List.replicate 20 0)

/-- Filesystem holding only the example population file. -/
def exPfs : PopFS := fun s => if s = "pop.csv" then some exPopLines else none

/-- A population file whose second line has only 2 + 2 fields, causing a
parse failure at region 1, year 2. -/
def exPopLinesBad : List (List ℚ) := [List.replicate 20 0, [0, 0, 5, 7]]

/-- Filesystem holding only the malformed population file. -/
def exPfsBad : PopFS := fun s => if s = "pop.csv" then some exPopLinesBad else none

/-- A binary filesystem with no files at all. -/
def fsEmpty : FS := fun _ => none

/-- A population filesystem with no files at all. -/
def pfsEmpty : PopFS := fun _ => none

/-- Configuration tokens leading to a file-open error in the first
five-year grid reader. -/
def toksOpenFail : List String := ["out.nc", "no-data", "missing.dat"]

/-- Configuration tokens leading to a data-truncation error in the first
five-year grid reader (together with `bfsTrunc`). -/
def toksTrunc : List String := ["out.nc", "no-data", "short.dat"]

/-- Filesystem with one five-record file, far too short for a grid. -/
def bfsTrunc : FS := fun s => if s = "short.dat" then some ⟨5, fun _ => 0⟩ else none

/-- Configuration tokens leading to a field-parse error in the population
reader (together with `pfsParse`). -/
def toksParseFail : List String :=
  ["out.nc", "no-data", "no-data", "no-data", "no-data", "no-data", "no-data",
   "no-data", "badpop.csv"]

/-- Filesystem whose population file has a single line with no fields. -/
def pfsParse : PopFS := fun s => if s = "badpop.csv" then some [[]] else none

/-- Configuration tokens of a fully successful run (all grids are the
no-data sentinel, tables and population come from `bfsGood`/`exPfs`). -/
def toksGood : List String :=
  ["out.nc", "no-data"] ++ List.replicate 7 "no-data" ++ ["pop.csv"]
    ++ List.replicate 8 "basin.dat" ++ List.replicate 8 "rgn.dat"

/-- Filesystem with complete basin and region table files. -/
def bfsGood : FS := fun s =>
  if s = "basin.dat" then some ⟨19 * NBASIN, fun _ => 0⟩
  else if s = "rgn.dat" then some ⟨19 * NRGN, fun _ => 0⟩
  else none


/-! ### Lemmas about the monthly-flow reader loop -/

theorem raadLoop_stat (f : BinFile) :
    ∀ (n year pos : ℕ) (g : Grid), pos + n * YBLK ≤ f.len →
      (raadLoop f n year pos g).1 = 0 := by
  intro n
  induction n with
  | zero => intro year pos g _; rfl
  | succ n ih =>
    intro year pos g h
    have hb : pos + YBLK ≤ f.len := by
      simp only [YBLK, CELLS, NLAT, NLON] at h ⊢; omega
    simp only [raadLoop, if_pos hb]
    split
    · exact ih _ _ _ (by simp only [YBLK, CELLS, NLAT, NLON] at h ⊢; omega)
    · exact ih _ _ _ (by simp only [YBLK, CELLS, NLAT, NLON] at h ⊢; omega)

theorem raadLoop_preserve (f : BinFile) (iy la lo : ℕ) :
    ∀ (n year pos : ℕ) (g : Grid),
      (∀ j, j < n →
        ¬(2010 ≤ year + j ∧ (year + j) % 5 = 0 ∧ (year + j - 2010) / 5 = iy)) →
      (raadLoop f n year pos g).2 iy la lo = g iy la lo := by
  intro n
  induction n with
  | zero => intro year pos g _; rfl
  | succ n ih =>
    intro year pos g hj
    have hshift : ∀ j, j < n →
        ¬(2010 ≤ (year + 1) + j ∧ ((year + 1) + j) % 5 = 0 ∧
          ((year + 1) + j - 2010) / 5 = iy) := by
      intro j hjn
      have := hj (j + 1) (by omega)
      omega
    simp only [raadLoop]
    by_cases hb : pos + YBLK ≤ f.len
    · rw [if_pos hb]
      by_cases hsk : year < 2010 ∨ year % 5 ≠ 0
      · rw [if_pos hsk]; exact ih _ _ _ hshift
      · rw [if_neg hsk]
        rw [ih _ _ _ hshift]
        have h0 := hj 0 (by omega)
        have hne : iy ≠ (year - 2010) / 5 := by omega
        have hcond : ¬(iy = (year - 2010) / 5 ∧ la < NLAT ∧ lo < NLON) := by
          intro hc; exact hne hc.1
        simp only [aggWrite, if_neg hcond]
    · rw [if_neg hb]

theorem raadLoop_write (f : BinFile) (la lo : ℕ) (hla : la < NLAT) (hlo : lo < NLON) :
    ∀ (n k year pos : ℕ) (g : Grid) (iy : ℕ),
      pos + n * YBLK ≤ f.len → k < n →
      2010 ≤ year + k → (year + k) % 5 = 0 → (year + k - 2010) / 5 = iy →
      (∀ j, k < j → j < n →
        ¬(2010 ≤ year + j ∧ (year + j) % 5 = 0 ∧ (year + j - 2010) / 5 = iy)) →
      (raadLoop f n year pos g).2 iy la lo
        = some (sumMonths f (pos + k * YBLK) la lo * fac) := by
  intro n
  induction n with
  | zero => intro k year pos g iy _ hk _ _ _ _; omega
  | succ n ih =>
    intro k year pos g iy hlen hk h10 h5 hdiv huniq
    have hb : pos + YBLK ≤ f.len := by
      simp only [YBLK, CELLS, NLAT, NLON] at hlen ⊢; omega
    simp only [raadLoop, if_pos hb]
    cases k with
    | zero =>
      have hsk : ¬(year < 2010 ∨ year % 5 ≠ 0) := by omega
      rw [if_neg hsk]
      have hpres : ∀ j, j < n →
          ¬(2010 ≤ (year + 1) + j ∧ ((year + 1) + j) % 5 = 0 ∧
            ((year + 1) + j - 2010) / 5 = iy) := by
        intro j hj
        have := huniq (j + 1) (by omega) (by omega)
        omega
      rw [raadLoop_preserve f iy la lo n (year + 1) (pos + YBLK) _ hpres]
      have hiy : iy = (year - 2010) / 5 := by omega
      have hc : iy = (year - 2010) / 5 ∧ la < NLAT ∧ lo < NLON := ⟨hiy, hla, hlo⟩
      simp only [aggWrite, if_pos hc, Nat.zero_mul, Nat.add_zero]
    | succ k' =>
      have harith : pos + YBLK + k' * YBLK = pos + (k' + 1) * YBLK := by ring
      by_cases hsk : year < 2010 ∨ year % 5 ≠ 0
      · rw [if_pos hsk]
        rw [ih k' (year + 1) (pos + YBLK) g iy
          (by simp only [YBLK, CELLS, NLAT, NLON] at hlen ⊢; omega) (by omega)
          (by omega) (by omega) (by omega)
          (by intro j h1 h2; have := huniq (j + 1) (by omega) (by omega); omega)]
        rw [harith]
      · rw [if_neg hsk]
        rw [ih k' (year + 1) (pos + YBLK) _ iy
          (by simp only [YBLK, CELLS, NLAT, NLON] at hlen ⊢; omega) (by omega)
          (by omega) (by omega) (by omega)
          (by intro j h1 h2; have := huniq (j + 1) (by omega) (by omega); omega)]
        rw [harith]

/-- The conversion factor `3.156e-2 / 12.0` is exactly `0.00263`. -/
theorem fac_eq : fac = 263 / 100000 := by norm_num [fac]

/-- C1 (amended): for every monthly-flow input file holding all 95 annual
blocks and every kept year `y = 2010 + 5*iy`, `read_and_aggregate_data`
stores at time-step `iy` and cell `[lat][lon]` the SUM of the 12 monthly
input values for that cell in year `y` multiplied by the fixed constant
0.00263 (equivalently, the arithmetic mean multiplied by 0.03156), with
the on-disk `[longitude][latitude]` axis order swapped to the archive's
`[latitude][longitude]` order.  The year-`y` block starts at stream
position `(9 + 5*iy) * YBLK`, and the cell at transposed read-buffer
index `NLAT*lon + lat` is the on-disk `[lon][lat]` entry. -/
theorem monthly_reader_value (fn : String) (bfs : FS) (f : BinFile) (iy la lo : ℕ)
    (hfn : fn ≠ "no-data") (hf : bfs fn = some f)
    (hlen : 95 * YBLK ≤ f.len) (hiy : iy < 18) (hla : la < 360) (hlo : lo < 720) :
    (readAndAggregateData fn bfs grid0).2 iy la lo
      = some (sumMonths f ((9 + 5 * iy) * YBLK) la lo * (263 / 100000)) := by
  have hla2 : la < NLAT := by simpa [NLAT] using hla
  have hlo2 : lo < NLON := by simpa [NLON] using hlo
  have h := raadLoop_write f la lo hla2 hlo2 95 (9 + 5 * iy) 2001 0 grid0 iy
    (by simpa using hlen) (by omega) (by omega) (by omega) (by omega)
    (by intro j h1 h2; omega)
  unfold readAndAggregateData
  rw [if_neg hfn, hf, h, fac_eq]
  norm_num

/-- Witness for C1: the amended claim applied to the all-ones example
monthly file at time-step 2, cell (3, 4). -/
theorem monthly_reader_value_witness :
    ("runoff.dat" : String) ≠ "no-data" ∧
    exBfsMonthly "runoff.dat" = some exMonthly ∧
    95 * YBLK ≤ exMonthly.len ∧
    (readAndAggregateData "runoff.dat" exBfsMonthly grid0).2 2 3 4
      = some (sumMonths exMonthly ((9 + 5 * 2) * YBLK) 3 4 * (263 / 100000)) :=
  ⟨by decide, rfl, by decide,
    monthly_reader_value "runoff.dat" exBfsMonthly exMonthly 2 3 4
      (by decide) rfl (by decide) (by decide) (by decide) (by decide)⟩

/-- C1 counterexample: the claim as stated is false.  For the all-ones
monthly file, the arithmetic mean of the 12 monthly values of cell (0,0)
in year 2010 is 1, so the claim predicts the stored value
`mean * 0.00263 = 0.00263`; the reader actually stores `sum * 0.00263 =
12 * 0.00263 = 0.03156`. -/
theorem monthly_reader_mean_claim_false :
    (readAndAggregateData "runoff.dat" exBfsMonthly grid0).2 0 0 0
      ≠ some (sumMonths exMonthly (9 * YBLK) 0 0 / 12 * (263 / 100000)) := by
  have hla2 : (0 : ℕ) < NLAT := by norm_num [NLAT]
  have hlo2 : (0 : ℕ) < NLON := by norm_num [NLON]
  have h := raadLoop_write exMonthly 0 0 hla2 hlo2 95 9 2001 0 grid0 0
    (by decide) (by omega) (by omega) (by omega) (by omega)
    (by intro j h1 h2; omega)
  have hsum : ∀ p, sumMonths exMonthly p 0 0 = 12 := by
    intro p
    simp [sumMonths, exMonthly]
  have hred : (readAndAggregateData "runoff.dat" exBfsMonthly grid0).2 0 0 0
      = (raadLoop exMonthly 95 2001 0 grid0).2 0 0 0 := rfl
  rw [hred, h, fac_eq, hsum, hsum]
  intro hcontra
  rw [Option.some_inj] at hcontra
  norm_num at hcontra

/-- C4: for every five-year-interval input with skip-year-count `k`
holding at least `k + 18` records, `read_5yr_data` succeeds, discards
exactly the `k` leading records, and sets output time-step `iy` at
`[lat][lon]` to the value of input record `k + iy` at flattened
`[lon][lat]` position `NLAT*lon + lat` — an axis transpose with no
further numeric transform. -/
theorem fiveyr_reader_skip_transpose (fn : String) (bfs : FS) (f : BinFile)
    (k : ℕ) (g : Grid) (iy la lo : ℕ)
    (hfn : fn ≠ "no-data") (hf : bfs fn = some f)
    (hlen : (k + 18) * CELLS ≤ f.len)
    (hiy : iy < 18) (hla : la < 360) (hlo : lo < 720) :
    (read5yrData fn bfs k g).1 = 0 ∧
    (read5yrData fn bfs k g).2 iy la lo
      = some (f.val ((k + iy) * CELLS + (NLAT * lo + la))) := by
  have hpos : min (k * CELLS) f.len = k * CELLS := by
    simp only [CELLS, NLAT, NLON] at hlen ⊢; omega
  have hcond : min (k * CELLS) f.len + NYEAR * CELLS ≤ f.len := by
    simp only [NYEAR, CELLS, NLAT, NLON] at hlen ⊢; omega
  have hcell : iy < NYEAR ∧ la < NLAT ∧ lo < NLON :=
    ⟨by simpa [NYEAR] using hiy, by simpa [NLAT] using hla, by simpa [NLON] using hlo⟩
  have hidx : min (k * CELLS) f.len + iy * CELLS + (NLAT * lo + la)
      = (k + iy) * CELLS + (NLAT * lo + la) := by
    rw [hpos, Nat.add_mul]
  constructor
  · simp only [read5yrData, if_neg hfn, hf, if_pos hcond]
  · simp only [read5yrData, if_neg hfn, hf, if_pos hcond]
    rw [if_pos hcell, hidx]

/-- Witness for C4: the theorem applied to the 20-record example
five-year file with skip-year-count 2 at time-step 0, cell (1, 2). -/
theorem fiveyr_reader_skip_transpose_witness :
    ("demand.dat" : String) ≠ "no-data" ∧
    exBfs5yr "demand.dat" = some ex5yr ∧ (2 + 18) * CELLS ≤ ex5yr.len ∧
    ((read5yrData "demand.dat" exBfs5yr 2 grid0).1 = 0 ∧
     (read5yrData "demand.dat" exBfs5yr 2 grid0).2 0 1 2
       = some (ex5yr.val ((2 + 0) * CELLS + (NLAT * 2 + 1)))) :=
  ⟨by decide, rfl, by decide,
    fiveyr_reader_skip_transpose "demand.dat" exBfs5yr ex5yr 2 grid0 0 1 2
      (by decide) rfl (by decide) (by decide) (by decide) (by decide)⟩

/-- C5: for every packed-binary table input with row count `nrow`
holding at least `19 * nrow` values, `read_table_data` succeeds,
discards exactly the first `nrow` values, and copies the following
`18 * nrow` values verbatim in stream order into the flat
`[time][entity]` table: entry `[t][e]` (flat index `t*nrow + e`) is the
stream value at position `nrow + t*nrow + e`, with no transpose and no
numeric transform. -/
theorem table_reader_verbatim (fn : String) (bfs : FS) (f : BinFile)
    (nrow : ℕ) (tbl : ℕ → ℚ) (t e : ℕ)
    (hf : bfs fn = some f) (hlen : 19 * nrow ≤ f.len)
    (ht : t < 18) (he : e < nrow) :
    (readTableData fn bfs nrow tbl).1 = 0 ∧
    (readTableData fn bfs nrow tbl).2 (t * nrow + e)
      = f.val (nrow + (t * nrow + e)) := by
  have hpos : min nrow f.len = nrow := by omega
  have hnread : min (NYEAR * nrow) (f.len - min nrow f.len) = NYEAR * nrow := by
    simp only [NYEAR]; omega
  have hidx : t * nrow + e < NYEAR * nrow := by
    simp only [NYEAR]
    calc t * nrow + e < (t + 1) * nrow := by
          rw [Nat.succ_mul]; exact Nat.add_lt_add_left he (t * nrow)
      _ ≤ 18 * nrow := Nat.mul_le_mul_right nrow (by omega)
  constructor
  · simp only [readTableData, hf, hnread, if_pos]
  · simp only [readTableData, hf, hnread, if_pos]
    rw [if_pos hidx, hpos]

/-- Witness for C5: the theorem applied to the example basin-table file
(19 × 235 records, value = stream position) at table entry [1][2]. -/
theorem table_reader_verbatim_witness :
    exBfsTbl "basin.dat" = some exTbl ∧ 19 * NBASIN ≤ exTbl.len ∧
    ((readTableData "basin.dat" exBfsTbl NBASIN (fun _ => 0)).1 = 0 ∧
     (readTableData "basin.dat" exBfsTbl NBASIN (fun _ => 0)).2 (1 * NBASIN + 2)
       = exTbl.val (NBASIN + (1 * NBASIN + 2))) :=
  ⟨rfl, by decide,
    table_reader_verbatim "basin.dat" exBfsTbl exTbl NBASIN (fun _ => 0) 1 2
      rfl (by decide) (by decide) (by decide)⟩

/-- C10: neither `read_5yr_data` nor `read_table_data` checks the result
of the leading throwaway read separately: on an openable non-sentinel
file, `read_5yr_data` with skip-year-count `k` succeeds if and only if
the file supplies at least `(k+18)*NLAT*NLON` values, and
`read_table_data` succeeds if and only if it supplies at least
`19*nrow` values; any shortfall — including one confined to the
discarded leading block — surfaces only through the single main-read
check. -/
theorem throwaway_read_unchecked (fn : String) (bfs : FS) (f : BinFile)
    (k nrow : ℕ) (g : Grid) (tbl : ℕ → ℚ)
    (hfn : fn ≠ "no-data") (hf : bfs fn = some f) :
    ((read5yrData fn bfs k g).1 = 0 ↔ (k + 18) * CELLS ≤ f.len) ∧
    ((readTableData fn bfs nrow tbl).1 = 0 ↔ 19 * nrow ≤ f.len) := by
  constructor
  · have hs : (read5yrData fn bfs k g).1
        = if min (k * CELLS) f.len + NYEAR * CELLS ≤ f.len then (0 : ℤ) else 1 := by
      simp only [read5yrData, if_neg hfn, hf]
      split <;> rfl
    rw [hs]
    constructor
    · intro h0
      by_cases hc : min (k * CELLS) f.len + NYEAR * CELLS ≤ f.len
      · simp only [NYEAR, CELLS, NLAT, NLON] at hc ⊢; omega
      · rw [if_neg hc] at h0; exact absurd h0 (by norm_num)
    · intro hlen
      rw [if_pos (by simp only [NYEAR, CELLS, NLAT, NLON] at hlen ⊢; omega)]
  · have hs : (readTableData fn bfs nrow tbl).1
        = if min (NYEAR * nrow) (f.len - min nrow f.len) = NYEAR * nrow
          then (0 : ℤ) else 1 := by
      simp only [readTableData, hf]
      split <;> rfl
    rw [hs]
    constructor
    · intro h0
      by_cases hc : min (NYEAR * nrow) (f.len - min nrow f.len) = NYEAR * nrow
      · simp only [NYEAR] at hc ⊢; omega
      · rw [if_neg hc] at h0; exact absurd h0 (by norm_num)
    · intro hlen
      rw [if_pos (by simp only [NYEAR]; omega)]

/-- Witness for C10: the theorem applied to the 20-record example
five-year file (skip 2) and row count 235. -/
theorem throwaway_read_unchecked_witness :
    ("demand.dat" : String) ≠ "no-data" ∧ exBfs5yr "demand.dat" = some ex5yr ∧
    (((read5yrData "demand.dat" exBfs5yr 2 grid0).1 = 0
        ↔ (2 + 18) * CELLS ≤ ex5yr.len) ∧
     ((readTableData "demand.dat" exBfs5yr 235 (fun _ => 0)).1 = 0
        ↔ 19 * 235 ≤ ex5yr.len)) :=
  ⟨by decide, rfl,
    throwaway_read_unchecked "demand.dat" exBfs5yr ex5yr 2 235 grid0 (fun _ => 0)
      (by decide) rfl⟩

/-- C7: the "no-data" sentinel makes both grid readers return success
and a grid whose every cell in the 18×360×720 range holds the NaN
marker. -/
theorem sentinel_nan_fill (bfs : FS) (k : ℕ) (g : Grid) (iy la lo : ℕ)
    (hiy : iy < 18) (hla : la < 360) (hlo : lo < 720) :
    (readAndAggregateData "no-data" bfs g).1 = 0 ∧
    (read5yrData "no-data" bfs k g).1 = 0 ∧
    (readAndAggregateData "no-data" bfs g).2 iy la lo = none ∧
    (read5yrData "no-data" bfs k g).2 iy la lo = none := by
  have hcell : iy < NYEAR ∧ la < NLAT ∧ lo < NLON :=
    ⟨by simpa [NYEAR] using hiy, by simpa [NLAT] using hla, by simpa [NLON] using hlo⟩
  refine ⟨rfl, rfl, ?_, ?_⟩
  · show nanFill g iy la lo = none
    simp only [nanFill, if_pos hcell]
  · show nanFill g iy la lo = none
    simp only [nanFill, if_pos hcell]

/-- Witness for C7: the theorem at cell (0, 0, 0) over the empty
filesystem. -/
theorem sentinel_nan_fill_witness :
    (0 : ℕ) < 18 ∧
    ((readAndAggregateData "no-data" fsEmpty grid0).1 = 0 ∧
     (read5yrData "no-data" fsEmpty 2 grid0).1 = 0 ∧
     (readAndAggregateData "no-data" fsEmpty grid0).2 0 0 0 = none ∧
     (read5yrData "no-data" fsEmpty 2 grid0).2 0 0 0 = none) :=
  ⟨by decide,
    sentinel_nan_fill fsEmpty 2 grid0 0 0 0 (by decide) (by decide) (by decide)⟩

/-- C2 (amended): only the grid readers implement the "no-data"
sentinel.  `read_and_aggregate_data` and `read_5yr_data` return success
(with a NaN-filled grid) without consulting the filesystem, but
`read_table_data` and `read_pop_data` contain no sentinel check: they
treat the sentinel as an ordinary path and return the file-open error
status 1 when no file of that name exists. -/
theorem sentinel_only_grid_readers (bfs : FS) (pfs : PopFS) (k nrow : ℕ)
    (g : Grid) (tmp0 : ℚ) (tbl : PopTbl) (ftbl : ℕ → ℚ)
    (hb : bfs "no-data" = none) (hp : pfs "no-data" = none) :
    (readAndAggregateData "no-data" bfs g).1 = 0 ∧
    (read5yrData "no-data" bfs k g).1 = 0 ∧
    (readTableData "no-data" bfs nrow ftbl).1 = 1 ∧
    (readPopData "no-data" pfs tmp0 tbl).1 = 1 := by
  refine ⟨rfl, rfl, ?_, ?_⟩
  · simp only [readTableData, hb]
  · simp only [readPopData, hp]

/-- Witness for C2: the amended claim over the empty filesystems. -/
theorem sentinel_only_grid_readers_witness :
    fsEmpty "no-data" = none ∧
    ((readAndAggregateData "no-data" fsEmpty grid0).1 = 0 ∧
     (read5yrData "no-data" fsEmpty 2 grid0).1 = 0 ∧
     (readTableData "no-data" fsEmpty NBASIN (fun _ => 0)).1 = 1 ∧
     (readPopData "no-data" pfsEmpty 0 (fun _ _ => 0)).1 = 1) :=
  ⟨rfl,
    sentinel_only_grid_readers fsEmpty pfsEmpty 2 NBASIN grid0 0
      (fun _ _ => 0) (fun _ => 0) rfl rfl⟩

/-- C2 counterexample: with no file literally named "no-data" present,
the population-table reader and the packed-binary table reader return
the file-open error status 1 on the sentinel token instead of the
designed success-with-missing-data outcome the claim asserts for all 25
input-path tokens. -/
theorem sentinel_table_readers_error :
    (readPopData "no-data" pfsEmpty 0 (fun _ _ => 0)).1 = 1 ∧
    (readTableData "no-data" fsEmpty NBASIN (fun _ => 0)).1 = 1 :=
  ⟨rfl, rfl⟩

/-! ### Lemmas about the population reader loops -/

theorem getD_irrel (l : List ℚ) :
    ∀ (n : ℕ), n < l.length → ∀ (d1 d2 : ℚ), l.getD n d1 = l.getD n d2 := by
  induction l with
  | nil => intro n h; simp at h
  | cons a t ih =>
    intro n h d1 d2
    cases n with
    | zero => rfl
    | succ m =>
      simp only [List.getD_cons_succ]
      exact ih m (by simpa using h) d1 d2

theorem getD_drop_two (l : List ℚ) (n : ℕ) (d : ℚ) :
    (l.drop 2).getD n d = l.getD (2 + n) d := by
  have h2 : 2 + n = n + 2 := by omega
  cases l with
  | nil => rfl
  | cons a t =>
    cases t with
    | nil => rw [h2]; rfl
    | cons b t2 => rw [h2]; rfl

theorem getD_tail (lines : List (List ℚ)) (j : ℕ) :
    lines.tail.getD j [] = lines.getD (j + 1) [] := by
  cases lines <;> rfl

theorem headD_eq_getD_zero (lines : List (List ℚ)) :
    lines.headD [] = lines.getD 0 [] := by
  cases lines <;> rfl

theorem popYears_zero (rgn : ℕ) (flds : List ℚ) (iyear : ℕ) (tmp : ℚ)
    (tbl : PopTbl) : popYears rgn flds 0 iyear tmp tbl = (none, tmp, tbl) := by
  cases flds <;> rfl

theorem popYears_nil (rgn n iyear : ℕ) (tmp : ℚ) (tbl : PopTbl) :
    popYears rgn [] (n + 1) iyear tmp tbl
      = (some iyear, tmp, updT tbl iyear rgn (roundHalfAwayFromZero tmp)) := rfl

theorem popYears_cons (rgn : ℕ) (v : ℚ) (rest : List ℚ) (n iyear : ℕ)
    (tmp : ℚ) (tbl : PopTbl) :
    popYears rgn (v :: rest) (n + 1) iyear tmp tbl
      = popYears rgn rest n (iyear + 1) v
          (updT tbl iyear rgn (roundHalfAwayFromZero v)) := rfl

theorem popYears_succ (rgn : ℕ) :
    ∀ (n : ℕ) (flds : List ℚ) (iyear : ℕ) (tmp : ℚ) (tbl : PopTbl),
      n ≤ flds.length →
      (popYears rgn flds n iyear tmp tbl).1 = none ∧
      (∀ y r, iyear ≤ y → y < iyear + n → r = rgn →
        (popYears rgn flds n iyear tmp tbl).2.2 y r
          = roundHalfAwayFromZero (flds.getD (y - iyear) 0)) ∧
      (∀ y r, y < iyear ∨ iyear + n ≤ y ∨ r ≠ rgn →
        (popYears rgn flds n iyear tmp tbl).2.2 y r = tbl y r) := by
  intro n
  induction n with
  | zero =>
    intro flds iyear tmp tbl _
    rw [popYears_zero]
    exact ⟨rfl, fun y r _ h2 _ => by omega, fun y r _ => rfl⟩
  | succ n ih =>
    intro flds iyear tmp tbl hlen
    cases flds with
    | nil => simp at hlen
    | cons v rest =>
      have hrest : n ≤ rest.length := by simpa using hlen
      obtain ⟨hh1, hh2, hh3⟩ := ih rest (iyear + 1) v
        (updT tbl iyear rgn (roundHalfAwayFromZero v)) hrest
      rw [popYears_cons]
      refine ⟨hh1, ?_, ?_⟩
      · intro y r hy1 hy2 hr
        by_cases hy0 : y = iyear
        · rw [hh3 y r (Or.inl (by omega))]
          subst hr; subst hy0
          simp [updT]
        · rw [hh2 y r (by omega) (by omega) hr]
          have hidx : y - iyear = (y - (iyear + 1)) + 1 := by omega
          rw [hidx, List.getD_cons_succ]
      · intro y r hcase
        have hres : (popYears rgn rest n (iyear + 1) v
            (updT tbl iyear rgn (roundHalfAwayFromZero v))).2.2 y r
            = updT tbl iyear rgn (roundHalfAwayFromZero v) y r := by
          rcases hcase with h | h | h
          · exact hh3 y r (Or.inl (by omega))
          · exact hh3 y r (Or.inr (Or.inl (by omega)))
          · exact hh3 y r (Or.inr (Or.inr h))
        rw [hres]
        simp only [updT]
        rw [if_neg ?hcond]
        case hcond =>
          intro hc
          rcases hcase with h | h | h
          · omega
          · omega
          · exact h hc.2

theorem popYears_fail (rgn : ℕ) :
    ∀ (n : ℕ) (flds : List ℚ) (iyear : ℕ) (tmp : ℚ) (tbl : PopTbl),
      flds.length < n →
      (popYears rgn flds n iyear tmp tbl).1 = some (iyear + flds.length) ∧
      (∀ y r, iyear ≤ y → y < iyear + flds.length → r = rgn →
        (popYears rgn flds n iyear tmp tbl).2.2 y r
          = roundHalfAwayFromZero (flds.getD (y - iyear) 0)) ∧
      ((popYears rgn flds n iyear tmp tbl).2.2 (iyear + flds.length) rgn
        = roundHalfAwayFromZero (flds.getD (flds.length - 1) tmp)) ∧
      (∀ y r, y < iyear ∨ iyear + flds.length < y ∨ r ≠ rgn →
        (popYears rgn flds n iyear tmp tbl).2.2 y r = tbl y r) := by
  intro n
  induction n with
  | zero => intro flds iyear tmp tbl h; omega
  | succ n ih =>
    intro flds iyear tmp tbl hlen
    cases flds with
    | nil =>
      rw [popYears_nil]
      refine ⟨by simp, fun y r _ h2 _ => by simp at h2; omega, ?_, ?_⟩
      · simp [updT]
      · intro y r hcase
        simp only [List.length_nil, Nat.add_zero] at hcase
        simp only [updT]
        rw [if_neg ?hc2]
        case hc2 =>
          intro hc
          rcases hcase with h | h | h
          · omega
          · omega
          · exact h hc.2

    | cons v rest =>
      have hrest : rest.length < n := by simpa using hlen
      obtain ⟨hh1, hh2, hh3, hh4⟩ := ih rest (iyear + 1) v
        (updT tbl iyear rgn (roundHalfAwayFromZero v)) hrest
      rw [popYears_cons]
      refine ⟨?_, ?_, ?_, ?_⟩
      · rw [hh1]
        exact congrArg some (by simp only [List.length_cons]; omega)
      · intro y r hy1 hy2 hr
        by_cases hy0 : y = iyear
        · rw [hh4 y r (Or.inl (by omega))]
          subst hr; subst hy0
          simp [updT]
        · simp only [List.length_cons] at hy2
          rw [hh2 y r (by omega) (by omega) hr]
          have hidx : y - iyear = (y - (iyear + 1)) + 1 := by omega
          rw [hidx, List.getD_cons_succ]
      · simp only [List.length_cons]
        have harith : iyear + (rest.length + 1) = (iyear + 1) + rest.length := by omega
        rw [harith, hh3]
        cases rest with
        | nil => simp
        | cons w rest2 =>
          simp only [List.length_cons]
          have e1 : rest2.length + 1 - 1 = rest2.length := by omega
          have e2 : rest2.length + 1 + 1 - 1 = rest2.length + 1 := by omega
          rw [e1, e2, List.getD_cons_succ]
          exact congrArg roundHalfAwayFromZero
            (getD_irrel (w :: rest2) rest2.length (by simp) v tmp)
      · intro y r hcase
        simp only [List.length_cons] at hcase
        have hres : (popYears rgn rest n (iyear + 1) v
            (updT tbl iyear rgn (roundHalfAwayFromZero v))).2.2 y r
            = updT tbl iyear rgn (roundHalfAwayFromZero v) y r := by
          rcases hcase with h | h | h
          · exact hh4 y r (Or.inl (by omega))
          · exact hh4 y r (Or.inr (Or.inl (by omega)))
          · exact hh4 y r (Or.inr (Or.inr h))
        rw [hres]
        simp only [updT]
        rw [if_neg ?hc3]
        case hc3 =>
          intro hc
          rcases hcase with h | h | h
          · omega
          · omega
          · exact h hc.2

theorem popLoop_succ_none (lines : List (List ℚ)) (rgn n : ℕ) (tmp : ℚ)
    (tbl : PopTbl) (tmp2 : ℚ) (tbl2 : PopTbl)
    (h : popYears rgn ((lines.headD []).drop 2) NYEAR 0 tmp tbl = (none, tmp2, tbl2)) :
    popLoop lines rgn (n + 1) tmp tbl = popLoop lines.tail (rgn + 1) n tmp2 tbl2 := by
  simp only [popLoop, h]

theorem popLoop_succ_some (lines : List (List ℚ)) (rgn n : ℕ) (tmp : ℚ)
    (tbl : PopTbl) (st : ℕ) (tmp2 : ℚ) (tbl2 : PopTbl)
    (h : popYears rgn ((lines.headD []).drop 2) NYEAR 0 tmp tbl
      = (some st, tmp2, tbl2)) :
    popLoop lines rgn (n + 1) tmp tbl = (1, tbl2) := by
  simp only [popLoop, h]

theorem popLoop_success :
    ∀ (n : ℕ) (lines : List (List ℚ)) (rgn : ℕ) (tmp : ℚ) (tbl : PopTbl),
      (∀ j, j < n → 18 ≤ ((lines.getD j []).drop 2).length) →
      (popLoop lines rgn n tmp tbl).1 = 0 ∧
      (∀ y r, y < 18 → rgn ≤ r → r < rgn + n →
        (popLoop lines rgn n tmp tbl).2 y r
          = roundHalfAwayFromZero (((lines.getD (r - rgn) []).drop 2).getD y 0)) ∧
      (∀ y r, r < rgn ∨ rgn + n ≤ r ∨ 18 ≤ y →
        (popLoop lines rgn n tmp tbl).2 y r = tbl y r) := by
  intro n
  induction n with
  | zero =>
    intro lines rgn tmp tbl _
    exact ⟨rfl, fun y r _ h2 h3 => by omega, fun y r _ => rfl⟩
  | succ n ih =>
    intro lines rgn tmp tbl hall
    have h0 : 18 ≤ ((lines.headD []).drop 2).length := by
      rw [headD_eq_getD_zero]; exact hall 0 (by omega)
    obtain ⟨hp1, hp2, hp3⟩ := popYears_succ rgn NYEAR ((lines.headD []).drop 2) 0 tmp tbl
      (by simpa [NYEAR] using h0)
    have hpy : popYears rgn ((lines.headD []).drop 2) NYEAR 0 tmp tbl
        = (none, (popYears rgn ((lines.headD []).drop 2) NYEAR 0 tmp tbl).2.1,
           (popYears rgn ((lines.headD []).drop 2) NYEAR 0 tmp tbl).2.2) := by
      rw [← hp1]
    rw [popLoop_succ_none lines rgn n tmp tbl _ _ hpy]
    have hall2 : ∀ j, j < n → 18 ≤ ((lines.tail.getD j []).drop 2).length := by
      intro j hj
      rw [getD_tail]
      exact hall (j + 1) (by omega)
    obtain ⟨ih1, ih2, ih3⟩ := ih lines.tail (rgn + 1)
      (popYears rgn ((lines.headD []).drop 2) NYEAR 0 tmp tbl).2.1
      (popYears rgn ((lines.headD []).drop 2) NYEAR 0 tmp tbl).2.2 hall2
    refine ⟨ih1, ?_, ?_⟩
    · intro y r hy hr1 hr2
      by_cases hreq : r = rgn
      · subst hreq
        rw [ih3 y r (Or.inl (by omega))]
        rw [hp2 y r (by omega) (by simp only [NYEAR]; omega) rfl]
        rw [headD_eq_getD_zero, Nat.sub_self, Nat.sub_zero]
      · rw [ih2 y r hy (by omega) (by omega)]
        have hsh : r - rgn = (r - (rgn + 1)) + 1 := by omega
        rw [hsh, ← getD_tail]
    · intro y r hcase
      have hcase2 : r < rgn + 1 ∨ rgn + 1 + n ≤ r ∨ 18 ≤ y := by
        rcases hcase with h | h | h
        · exact Or.inl (by omega)
        · exact Or.inr (Or.inl (by omega))
        · exact Or.inr (Or.inr h)
      rw [ih3 y r hcase2]
      refine hp3 y r ?_
      rcases hcase with h | h | h
      · exact Or.inr (Or.inr (by omega))
      · exact Or.inr (Or.inr (by omega))
      · exact Or.inr (Or.inl (by simp only [NYEAR]; omega))

theorem popLoop_fail :
    ∀ (n : ℕ) (lines : List (List ℚ)) (rgn : ℕ) (tmp : ℚ) (tbl : PopTbl) (j : ℕ),
      j < n →
      (∀ i, i < j → 18 ≤ ((lines.getD i []).drop 2).length) →
      ((lines.getD j []).drop 2).length < 18 →
      (popLoop lines rgn n tmp tbl).1 = 1 ∧
      (∀ y r, y < 18 → rgn ≤ r → r < rgn + j →
        (popLoop lines rgn n tmp tbl).2 y r
          = roundHalfAwayFromZero (((lines.getD (r - rgn) []).drop 2).getD y 0)) ∧
      (∀ y, y < ((lines.getD j []).drop 2).length →
        (popLoop lines rgn n tmp tbl).2 y (rgn + j)
          = roundHalfAwayFromZero (((lines.getD j []).drop 2).getD y 0)) ∧
      (((lines.getD j []).drop 2) ≠ [] →
        (popLoop lines rgn n tmp tbl).2 ((lines.getD j []).drop 2).length (rgn + j)
          = roundHalfAwayFromZero
              (((lines.getD j []).drop 2).getD
                (((lines.getD j []).drop 2).length - 1) 0)) ∧
      (∀ y r, r < rgn → (popLoop lines rgn n tmp tbl).2 y r = tbl y r) := by
  intro n
  induction n with
  | zero => intro lines rgn tmp tbl j hj _ _; omega
  | succ n ih =>
    intro lines rgn tmp tbl j hj hpre hfail
    cases j with
    | zero =>
      have hfail0 : ((lines.headD []).drop 2).length < NYEAR := by
        rw [headD_eq_getD_zero]; simpa [NYEAR] using hfail
      obtain ⟨hp1, hp2, hp3, hp4⟩ := popYears_fail rgn NYEAR
        ((lines.headD []).drop 2) 0 tmp tbl hfail0
      have hpy : popYears rgn ((lines.headD []).drop 2) NYEAR 0 tmp tbl
          = (some (0 + ((lines.headD []).drop 2).length),
             (popYears rgn ((lines.headD []).drop 2) NYEAR 0 tmp tbl).2.1,
             (popYears rgn ((lines.headD []).drop 2) NYEAR 0 tmp tbl).2.2) := by
        rw [← hp1]
      rw [popLoop_succ_some lines rgn n tmp tbl _ _ _ hpy]
      simp only [← headD_eq_getD_zero]
      refine ⟨by trivial, fun y r _ _ h3 => by omega, ?_, ?_, ?_⟩
      · intro y hy
        show (popYears rgn ((lines.headD []).drop 2) NYEAR 0 tmp tbl).2.2 y (rgn + 0)
          = _
        rw [hp2 y (rgn + 0) (by omega) (by omega) (by omega)]
        rw [Nat.sub_zero]
      · intro hne
        show (popYears rgn ((lines.headD []).drop 2) NYEAR 0 tmp tbl).2.2
          ((lines.headD []).drop 2).length (rgn + 0) = _
        have hr0 : rgn + 0 = rgn := by omega
        rw [hr0]
        have h00 : (0 : ℕ) + ((lines.headD []).drop 2).length
            = ((lines.headD []).drop 2).length := by omega
        rw [h00] at hp3
        rw [hp3]
        refine congrArg roundHalfAwayFromZero ?_
        refine getD_irrel _ _ ?_ tmp 0
        have : ((lines.headD []).drop 2).length ≠ 0 := by
          intro h
          exact hne (List.length_eq_zero.mp h)
        omega
      · intro y r hr
        show (popYears rgn ((lines.headD []).drop 2) NYEAR 0 tmp tbl).2.2 y r = tbl y r
        exact hp4 y r (Or.inr (Or.inr (by omega)))
    | succ j2 =>
      have h0 : 18 ≤ ((lines.headD []).drop 2).length := by
        rw [headD_eq_getD_zero]; exact hpre 0 (by omega)
      obtain ⟨hp1, hp2, hp3⟩ := popYears_succ rgn NYEAR ((lines.headD []).drop 2) 0 tmp tbl
        (by simpa [NYEAR] using h0)
      have hpy : popYears rgn ((lines.headD []).drop 2) NYEAR 0 tmp tbl
          = (none, (popYears rgn ((lines.headD []).drop 2) NYEAR 0 tmp tbl).2.1,
             (popYears rgn ((lines.headD []).drop 2) NYEAR 0 tmp tbl).2.2) := by
        rw [← hp1]
      rw [popLoop_succ_none lines rgn n tmp tbl _ _ hpy]
      have hpre2 : ∀ i, i < j2 → 18 ≤ ((lines.tail.getD i []).drop 2).length := by
        intro i hi
        rw [getD_tail]
        exact hpre (i + 1) (by omega)
      have hfail2 : ((lines.tail.getD j2 []).drop 2).length < 18 := by
        rw [getD_tail]
        exact hfail
      obtain ⟨ih1, ih2, ih3, ih4, ih5⟩ := ih lines.tail (rgn + 1)
        (popYears rgn ((lines.headD []).drop 2) NYEAR 0 tmp tbl).2.1
        (popYears rgn ((lines.headD []).drop 2) NYEAR 0 tmp tbl).2.2 j2
        (by omega) hpre2 hfail2
      refine ⟨ih1, ?_, ?_, ?_, ?_⟩
      · intro y r hy hr1 hr2
        by_cases hreq : r = rgn
        · subst hreq
          rw [ih5 y r (by omega)]
          rw [hp2 y r (by omega) (by simp only [NYEAR]; omega) rfl]
          rw [headD_eq_getD_zero, Nat.sub_self, Nat.sub_zero]
        · rw [ih2 y r hy (by omega) (by omega)]
          have hsh : r - rgn = (r - (rgn + 1)) + 1 := by omega
          rw [hsh, ← getD_tail]
      · intro y hy
        have harr : rgn + (j2 + 1) = (rgn + 1) + j2 := by omega
        rw [harr]
        rw [getD_tail] at ih3
        exact ih3 y hy
      · intro hne
        have harr : rgn + (j2 + 1) = (rgn + 1) + j2 := by omega
        rw [harr]
        rw [getD_tail] at ih4
        exact ih4 hne
      · intro y r hr
        rw [ih5 y r (by omega)]
        exact hp3 y r (Or.inr (Or.inr (by omega)))

/-- C6: for every population text file with at least 63 lines of at
least 20 comma-separated numeric fields each, `read_pop_data` succeeds;
it discards the first two fields of each line, parses the next 18
comma-prefixed fields, stores each into the `[time][region]` table
rounded to the nearest integer with halves away from zero, and discards
any trailing fields by consuming the remainder of the line (so line `r`
alone determines row `r`). -/
theorem pop_reader_rounds (fn : String) (pfs : PopFS) (lines : List (List ℚ))
    (tmp0 : ℚ) (tbl : PopTbl) (y r : ℕ)
    (hfs : pfs fn = some lines)
    (hlen : ∀ i, i < 63 → 20 ≤ (lines.getD i []).length)
    (hy : y < 18) (hr : r < 63) :
    (readPopData fn pfs tmp0 tbl).1 = 0 ∧
    (readPopData fn pfs tmp0 tbl).2 y r
      = roundHalfAwayFromZero ((lines.getD r []).getD (2 + y) 0) := by
  have hall : ∀ j, j < 63 → 18 ≤ ((lines.getD j []).drop 2).length := by
    intro j hj
    have := hlen j hj
    rw [List.length_drop]
    omega
  obtain ⟨h1, h2, _⟩ := popLoop_success 63 lines 0 tmp0 tbl hall
  have hrd : readPopData fn pfs tmp0 tbl = popLoop lines 0 63 tmp0 tbl := by
    simp only [readPopData, hfs, NRGN]
  rw [hrd]
  refine ⟨h1, ?_⟩
  rw [h2 y r hy (by omega) (by omega)]
  rw [Nat.sub_zero, getD_drop_two]

/-- Witness for C6: the theorem applied to the 63-line, 20-field example
population file at cell (5, 7). -/
theorem pop_reader_rounds_witness :
    exPfs "pop.csv" = some exPopLines ∧
    (∀ i, i < 63 → 20 ≤ (exPopLines.getD i []).length) ∧
    ((readPopData "pop.csv" exPfs 0 (fun _ _ => 0)).1 = 0 ∧
     (readPopData "pop.csv" exPfs 0 (fun _ _ => 0)).2 5 7
       = roundHalfAwayFromZero ((exPopLines.getD 7 []).getD (2 + 5) 0)) :=
  ⟨rfl, by decide,
    pop_reader_rounds "pop.csv" exPfs exPopLines 0 (fun _ _ => 0) 5 7
      rfl (by decide) (by decide) (by decide)⟩

/-- C9: if `read_pop_data` runs into a parse failure at region `r` and
year `y` (the line for region `r` having exactly `2 + y` fields with
`1 ≤ y < 18`, all earlier lines well-formed), it returns failure, but
the output table is not left unchanged: every cell earlier in the
traversal order (all 18 years of every earlier region, and years
`0..y-1` of region `r`) has already been written, and the failing cell
`[y][r]` itself has been assigned from the not-successfully-parsed
temporary — which still holds the previously parsed field — before the
conversion count was checked. -/
theorem pop_reader_partial_write_on_failure (fn : String) (pfs : PopFS)
    (lines : List (List ℚ)) (tmp0 : ℚ) (tbl : PopTbl) (r y : ℕ)
    (hfs : pfs fn = some lines)
    (hr : r < 63) (hy : y < 18) (hy1 : 1 ≤ y)
    (hpre : ∀ i, i < r → 20 ≤ (lines.getD i []).length)
    (hfail : (lines.getD r []).length = 2 + y) :
    (readPopData fn pfs tmp0 tbl).1 = 1 ∧
    (∀ y2 r2, y2 < 18 → r2 < r →
      (readPopData fn pfs tmp0 tbl).2 y2 r2
        = roundHalfAwayFromZero ((lines.getD r2 []).getD (2 + y2) 0)) ∧
    (∀ y2, y2 < y →
      (readPopData fn pfs tmp0 tbl).2 y2 r
        = roundHalfAwayFromZero ((lines.getD r []).getD (2 + y2) 0)) ∧
    (readPopData fn pfs tmp0 tbl).2 y r
      = roundHalfAwayFromZero ((lines.getD r []).getD (2 + y - 1) 0) := by
  have hfl : ((lines.getD r []).drop 2).length = y := by
    rw [List.length_drop]; omega
  have hprefix : ∀ i, i < r → 18 ≤ ((lines.getD i []).drop 2).length := by
    intro i hi
    have := hpre i hi
    rw [List.length_drop]; omega
  obtain ⟨h1, h2, h3, h4, _⟩ := popLoop_fail 63 lines 0 tmp0 tbl r hr hprefix
    (by rw [hfl]; omega)
  have hrd : readPopData fn pfs tmp0 tbl = popLoop lines 0 63 tmp0 tbl := by
    simp only [readPopData, hfs, NRGN]
  rw [hrd]
  refine ⟨h1, ?_, ?_, ?_⟩
  · intro y2 r2 hy2 hr2
    rw [h2 y2 r2 hy2 (by omega) (by omega)]
    rw [Nat.sub_zero, getD_drop_two]
  · intro y2 hy2
    have h3y := h3 y2 (by omega)
    rw [Nat.zero_add] at h3y
    rw [h3y, getD_drop_two]
  · have hne : (lines.getD r []).drop 2 ≠ [] := by
      intro h
      have := congrArg List.length h
      simp only [List.length_nil] at this
      omega
    have h4y := h4 hne
    rw [Nat.zero_add, hfl] at h4y
    rw [h4y, getD_drop_two]
    have : 2 + (y - 1) = 2 + y - 1 := by omega
    rw [this]

/-- Witness for C9: the theorem applied to the malformed example
population file whose second line is `0,0,5,7` — region 1 fails at year
index 2; cell [2][1] receives the stale value 7 (rounded). -/
theorem pop_reader_partial_write_on_failure_witness :
    exPfsBad "pop.csv" = some exPopLinesBad ∧
    (exPopLinesBad.getD 1 []).length = 2 + 2 ∧
    ((readPopData "pop.csv" exPfsBad 0 (fun _ _ => 0)).1 = 1 ∧
     (∀ y2 r2, y2 < 18 → r2 < 1 →
       (readPopData "pop.csv" exPfsBad 0 (fun _ _ => 0)).2 y2 r2
         = roundHalfAwayFromZero ((exPopLinesBad.getD r2 []).getD (2 + y2) 0)) ∧
     (∀ y2, y2 < 2 →
       (readPopData "pop.csv" exPfsBad 0 (fun _ _ => 0)).2 y2 1
         = roundHalfAwayFromZero ((exPopLinesBad.getD 1 []).getD (2 + y2) 0)) ∧
     (readPopData "pop.csv" exPfsBad 0 (fun _ _ => 0)).2 2 1
       = roundHalfAwayFromZero ((exPopLinesBad.getD 1 []).getD (2 + 2 - 1) 0)) :=
  ⟨rfl, by decide,
    pop_reader_partial_write_on_failure "pop.csv" exPfsBad exPopLinesBad 0
      (fun _ _ => 0) 1 2 rfl (by decide) (by decide) (by decide)
      (by decide) (by decide)⟩

/-- C3 (amended): the process exits 0 on success and non-zero on every
failure detected by `main`, but the statuses are not pairwise distinct
across failure kinds: a usage error exits 2; a short configuration
attribute read or a missing file-name token exits 3; while an
unopenable configuration file, reader file-open errors, data-truncation
errors, population field-parse errors, and archive-write errors all
exit with the same status 1. -/
theorem main_exit_codes :
    mainRun false true 3 [] fsEmpty pfsEmpty 0 true = 2 ∧
    mainRun true false 3 [] fsEmpty pfsEmpty 0 true = 1 ∧
    mainRun true true 2 [] fsEmpty pfsEmpty 0 true = 3 ∧
    mainRun true true 3 [] fsEmpty pfsEmpty 0 true = 3 ∧
    mainRun true true 3 toksOpenFail fsEmpty pfsEmpty 0 true = 1 ∧
    mainRun true true 3 toksTrunc bfsTrunc pfsEmpty 0 true = 1 ∧
    mainRun true true 3 toksParseFail fsEmpty pfsParse 0 true = 1 ∧
    mainRun true true 3 toksGood bfsGood exPfs 0 false = 1 ∧
    mainRun true true 3 toksGood bfsGood exPfs 0 true = 0 := by
  exact ⟨rfl, rfl, rfl, rfl, rfl, rfl, rfl, rfl, rfl⟩

/-- C3 counterexample: a reader file-open failure and a population
field-parse failure terminate the process with the same exit status 1,
so the claimed pairwise distinctness of the failure kinds already fails
on this pair. -/
theorem exit_codes_not_distinct :
    mainRun true true 3 toksOpenFail fsEmpty pfsEmpty 0 true = 1 ∧
    mainRun true true 3 toksParseFail fsEmpty pfsParse 0 true = 1 :=
  ⟨rfl, rfl⟩

set_option maxHeartbeats 2000000 in
set_option maxRecDepth 8000 in
/-- C8: the archive writer defines exactly these coordinate values: lat
has 360 cell-center values from −89.75 (that is, −8975/100) to 89.75 in
steps of 0.5 (50/100); lon has 720 cell-center values from −179.75 to
179.75 in steps of 0.5; time has the 18 values 2010, 2015, …, 2095; rgn
has the 63 values 0..62; basin has the 235 values 1..235.  The final
three conjuncts identify the integer-hundredths encoding with the
decimal endpoints and step of the spec. -/
theorem archive_coordinates :
    lat_data = ((List.range 360).map
      (fun i : ℕ => -8975 + 50 * (i : ℤ))).map (fun z : ℤ => (z : ℚ) / 100) ∧
    lon_data = ((List.range 720).map
      (fun i : ℕ => -17975 + 50 * (i : ℤ))).map (fun z : ℤ => (z : ℚ) / 100) ∧
    time_data = (List.range 18).map (fun i : ℕ => ((2010 + 5 * (i : ℤ) : ℤ) : ℚ)) ∧
    rgn_data = (List.range 63).map (fun i => (i : ℤ)) ∧
    basin_data = (List.range 235).map (fun i => (i : ℤ) + 1) ∧
    ((-8975 : ℤ) : ℚ) / 100 = -89.75 ∧ (((-8975 : ℤ) + 50 * 359 : ℤ) : ℚ) / 100 = 89.75 ∧
    ((-17975 : ℤ) : ℚ) / 100 = -179.75 ∧ (((-17975 : ℤ) + 50 * 719 : ℤ) : ℚ) / 100 = 179.75 ∧
    ((50 : ℤ) : ℚ) / 100 = 0.5 := by
  refine ⟨?_, ?_, ?_, rfl, rfl, by norm_num, by norm_num, by norm_num, by norm_num,
    by norm_num⟩
  · exact congrArg (List.map (fun z : ℤ => (z : ℚ) / 100))
      (by decide : latHundredths = (List.range 360).map (fun i : ℕ => -8975 + 50 * (i : ℤ)))
  · exact congrArg (List.map (fun z : ℤ => (z : ℚ) / 100))
      (by decide : lonHundredths = (List.range 720).map (fun i : ℕ => -17975 + 50 * (i : ℤ)))
  · norm_num [time_data, List.range_succ]

end Mat2nc
